import Mathlib

/-!
Shallow embedding of the Imaginary Crime Lab worker (Cloudflare Worker API
gateway over Neon Postgres and MongoDB) and proofs about its Case Resolution
Engine, activity stream and analytics endpoints.

The embedding follows the source:
* `src/unnamed/part_000` — the Neon schema (`cases`, `case_evidence`,
  `purchases` with `order_id UNIQUE`, `purchased_evidence` keyed by
  `evidence_id`).
* `src/unnamed/part_010` (first worker variant) — `handleOrderWebhook` that
  inserts into `purchased_evidence` with `ON CONFLICT (evidence_id) DO
  NOTHING`, aggregates required evidence of unsolved cases via a LEFT JOIN
  with `array_agg`, and marks cases solved when the current order's evidence
  ids cover the aggregated requirement; also the `/reset-progress` route and
  the polling `handleActivityStream` / `handleActivityAnalytics` of the
  second variant in the same file.
* `src/unnamed/part_011` — `handleOrderWebhook` that extracts `case_ids`
  from order attributes, updates `cases` guarded by `solved_at IS NULL`,
  and inserts a `purchases` row.
-/

namespace CrimeLab

/-- Evidence identifiers are Shopify product ids, `VARCHAR(50)` in the
schema and `product_id.toString()` in the worker. -/
abbrev EvidenceId := String

/-- Shopify order identifiers, `order.id.toString()` in the worker. -/
abbrev OrderId := String

/-- Case ids: `cases.id` is `SERIAL`; the worker casts incoming case ids to
`int[]`, so we model case ids as integers. -/
abbrev CaseId := Int

/-- Timestamps (`NOW()`, `Date.now()`) as abstract instants. -/
abbrev Timestamp := Nat

/-- One row of the `cases` table, restricted to the columns the resolution
engine touches: the id and the nullable `solved_at`. -/
structure CaseRow where
  id : CaseId
  solvedAt : Option Timestamp
  deriving DecidableEq, Repr

/-- One row of the `purchases` table (part_000 lines 33-41): the unique
external order id, the conveyed evidence ids, the case ids it solved and
the total amount. -/
structure PurchaseRow where
  orderId : OrderId
  evidenceIds : List EvidenceId
  caseIds : List CaseId
  totalAmount : Int
  deriving DecidableEq, Repr

/-- A `case_solved` document the part_011 webhook writes to the MongoDB
`activities` collection. -/
structure ActivityRec where
  type : String
  caseIds : List CaseId
  orderId : OrderId
  ts : Timestamp
  deriving DecidableEq, Repr

/-- The durable state the worker manipulates: the `cases` table, the
`case_evidence` join table (pairs `(case_id, evidence_id)`), the
`purchases` table, the `purchased_evidence` ledger (keyed by evidence id,
each row also storing the order id that purchased it) and the MongoDB
`activities` collection. -/
structure World where
  cases : List CaseRow
  caseEvidence : List (CaseId × EvidenceId)
  purchases : List PurchaseRow
  purchasedEvidence : List (EvidenceId × OrderId)
  activities : List ActivityRec
  deriving Repr

/-- Worker environment configuration flags (`env.NEON_DATABASE_URL`,
`env.MONGODB_API_KEY`). -/
structure Env where
  neonConfigured : Bool
  mongoConfigured : Bool
  deriving Repr

/-- A line item of an incoming Shopify order; the worker reads
`item.product_id.toString()`. -/
structure LineItem where
  productId : EvidenceId
  deriving DecidableEq, Repr

/-! ## Evidence Ledger (part_010 lines 382-388, part_000 lines 56-60)

`INSERT INTO purchased_evidence (evidence_id, order_id) VALUES ($1, $2)
ON CONFLICT (evidence_id) DO NOTHING` against a table whose primary key is
`evidence_id`.  The returned Boolean is the statement's affected-row count
(1 = newly recorded, 0 = conflict skipped). -/

/-- One `ON CONFLICT (evidence_id) DO NOTHING` insert into
`purchased_evidence`.  Returns the new ledger and whether a row was
actually inserted. -/
def recordPurchased (ledger : List (EvidenceId × OrderId))
    (e : EvidenceId) (o : OrderId) : List (EvidenceId × OrderId) × Bool :=
  if ledger.any (fun r => r.1 = e) then (ledger, false)
  else (ledger ++ [(e, o)], true)

/-- The evidence ids present in the ledger, as read by
`SELECT evidence_id FROM purchased_evidence`. -/
def ledgerIds (ledger : List (EvidenceId × OrderId)) : List EvidenceId :=
  ledger.map (·.1)

/-! ## Requirement aggregation (part_010 lines 391-397)

`SELECT c.id, array_agg(ce.evidence_id) as required FROM cases c LEFT JOIN
case_evidence ce ON c.id = ce.case_id WHERE c.solved_at IS NULL GROUP BY
c.id`.  For a case with no `case_evidence` rows the LEFT JOIN produces one
all-NULL row, so `array_agg` yields `[NULL]`; we model the aggregated
column as a list of `Option EvidenceId`. -/

/-- The `array_agg(ce.evidence_id)` column for one case id. -/
def aggRequired (caseEvidence : List (CaseId × EvidenceId)) (cid : CaseId) :
    List (Option EvidenceId) :=
  let rows := (caseEvidence.filter (fun r => r.1 = cid)).map (fun r => some r.2)
  if rows.isEmpty then [none] else rows

/-! ## Order webhook, part_010 first variant (lines 368-420)

Extracts the evidence ids of the order's line items, inserts each into
`purchased_evidence`, aggregates the requirements of the still-unsolved
cases, and marks solved every case whose aggregated requirement list is
covered by `evidenceIds.includes` — the *current order's* evidence ids. -/

/-- The response of the part_010 webhook variant. -/
inductive ResponseA where
  | dbNotConfigured
  | ok (evidenceCount : Nat) (solvedCases : List CaseId)
  deriving DecidableEq, Repr

/-- The webhook's solving loop (part_010 lines 399-405): over the
still-unsolved cases with their aggregated requirements, collect the ids
of those whose every requirement entry is among the current order's
evidence ids (`c.required.every(req => evidenceIds.includes(req))`). -/
def webhookSolvedCaseIds (w : World) (evidenceIds : List EvidenceId) :
    List CaseId :=
  ((w.cases.filter (fun c => c.solvedAt = none)).filter (fun c =>
    (aggRequired w.caseEvidence c.id).all
      (fun req => req ∈ evidenceIds.map some))).map (·.id)

/-- The `handleOrderWebhook` of the first part_010 worker variant.
`order.line_items.map(item => item.product_id.toString())`, then the
ledger inserts, then the coverage check
`c.required.every(req => evidenceIds.includes(req))`, then
`UPDATE cases SET solved_at = NOW() WHERE id = ANY($1)` when any case
was newly covered. -/
def handleOrderWebhookA (env : Env) (w : World) (orderId : OrderId)
    (lineItems : List LineItem) (now : Timestamp) : World × ResponseA :=
  if ¬ env.neonConfigured then (w, .dbNotConfigured)
  else
    let evidenceIds := lineItems.map (·.productId)
    let ledger := evidenceIds.foldl
      (fun l e => (recordPurchased l e orderId).1) w.purchasedEvidence
    let solvedCaseIds := webhookSolvedCaseIds w evidenceIds
    let cases' :=
      if solvedCaseIds.isEmpty then w.cases
      else w.cases.map (fun c =>
        if solvedCaseIds.contains c.id then { c with solvedAt := some now } else c)
    ({ w with cases := cases', purchasedEvidence := ledger },
     .ok evidenceIds.length solvedCaseIds)

/-! ## Reset progress (part_010 lines 33-37)

`DELETE FROM purchased_evidence; UPDATE cases SET solved_at = NULL`. -/

/-- The `/reset-progress` route. -/
def resetProgress (w : World) : World :=
  { w with
    purchasedEvidence := []
    cases := w.cases.map (fun c => { c with solvedAt := none }) }

/-! ## Order webhook, part_011 variant (lines 371-439)

Extracts `case_ids` from the order's custom/note attributes, parses them
with JavaScript `parseInt`, updates `cases` guarded by `solved_at IS
NULL`, inserts one `purchases` row (whose `order_id` column is `UNIQUE`),
and logs a `case_solved` activity when MongoDB is configured. -/

/-- The numeric value of a decimal digit character. -/
def decDigitVal (c : Char) : Nat := c.toNat - 48

/-- Whether a character is a hexadecimal digit. -/
def jsIsHexDigit (c : Char) : Bool :=
  c.isDigit || ('a' ≤ c && c ≤ 'f') || ('A' ≤ c && c ≤ 'F')

/-- The numeric value of a hexadecimal digit character. -/
def hexDigitVal (c : Char) : Nat :=
  if c.isDigit then c.toNat - 48
  else if 'a' ≤ c && c ≤ 'f' then c.toNat - 87
  else c.toNat - 55

/-- Digits to a natural number in the given base. -/
def digitsToNat (base : Nat) (val : Char → Nat) (ds : List Char) : Nat :=
  ds.foldl (fun n c => n * base + val c) 0

/-- JavaScript `String.prototype.trim()`: strip whitespace from both
ends. -/
def jsTrim (s : String) : String :=
  String.mk
    (((s.toList.dropWhile Char.isWhitespace).reverse.dropWhile
      Char.isWhitespace).reverse)

/-- JavaScript `String.prototype.split(',')` for the single-character
separator used by the webhook (`''.split(',')` is `['']`). -/
def splitCommaAux : List Char → List Char → List String
  | [], acc => [String.mk acc.reverse]
  | c :: rest, acc =>
    if c = ',' then String.mk acc.reverse :: splitCommaAux rest []
    else splitCommaAux rest (c :: acc)

/-- The webhook's `value.split(',')`. -/
def splitComma (s : String) : List String := splitCommaAux s.toList []

/-- JavaScript `parseInt(s)` with no radix argument: after skipping
leading whitespace, an optional sign, then either a `0x`/`0X`
hexadecimal prefix or the longest decimal-digit prefix; `NaN` (here
`none`) when no digit follows. -/
def parseIntJs (s : String) : Option Int :=
  let cs := s.toList.dropWhile Char.isWhitespace
  let signRest : Int × List Char :=
    match cs with
    | '-' :: r => (-1, r)
    | '+' :: r => (1, r)
    | r => (1, r)
  let sign := signRest.1
  let rest := signRest.2
  match rest with
  | '0' :: x :: r =>
    if x = 'x' || x = 'X' then
      let ds := r.takeWhile jsIsHexDigit
      if ds.isEmpty then none
      else some (sign * Int.ofNat (digitsToNat 16 hexDigitVal ds))
    else
      let ds := rest.takeWhile Char.isDigit
      some (sign * Int.ofNat (digitsToNat 10 decDigitVal ds))
  | _ =>
    let ds := rest.takeWhile Char.isDigit
    if ds.isEmpty then none
    else some (sign * Int.ofNat (digitsToNat 10 decDigitVal ds))

/-- The parse `caseIdsAttr.value.split(',').map(id => parseInt(id.trim())).filter(id
=> !isNaN(id))` (part_011 line 395). -/
def parseCaseIds (v : String) : List CaseId :=
  (splitComma v).filterMap (fun s => parseIntJs (jsTrim s))

/-- One entry of `order.customAttributes` / `order.note_attributes`. -/
structure Attr where
  key : Option String
  name : Option String
  value : Option String
  deriving DecidableEq, Repr

/-- The webhook payload fields the part_011 handler reads. -/
structure OrderB where
  id : OrderId
  customAttributes : Option (List Attr)
  noteAttributes : Option (List Attr)
  lineItems : Option (List LineItem)
  totalPrice : Int
  deriving Repr

/-- The fallback `order.customAttributes || order.note_attributes || []` (JavaScript
`||` takes the first defined operand; arrays are always truthy). -/
def orderAttrs (o : OrderB) : List Attr :=
  match o.customAttributes with
  | some l => l
  | none =>
    match o.noteAttributes with
    | some l => l
    | none => []

/-- The lookup `customAttrs.find(attr => attr.key === 'case_ids' || attr.name ===
'case_ids')?.value`. -/
def caseIdsAttrValue (o : OrderB) : Option String :=
  match (orderAttrs o).find?
      (fun a => a.key = some "case_ids" || a.name = some "case_ids") with
  | none => none
  | some a => a.value

/-- The response of the part_011 webhook variant.  `dbNotConfigured`
carries `success: false`; the two warnings and `ok` carry `success:
true`; `uniqueViolation` stands for the thrown `purchases.order_id`
unique-constraint error, turned into an HTTP 500 error response by the
worker's outer catch. -/
inductive ResponseB where
  | dbNotConfigured
  | warnNoCaseIds
  | warnInvalidCaseIds
  | ok (casesSolved : Nat)
  | uniqueViolation
  deriving DecidableEq, Repr

/-- Whether a part_011 webhook response reports success to the sender. -/
def ResponseB.success : ResponseB → Bool
  | .dbNotConfigured => false
  | .warnNoCaseIds => true
  | .warnInvalidCaseIds => true
  | .ok _ => true
  | .uniqueViolation => false

/-- The statement `UPDATE cases SET solved_at = NOW() WHERE id = ANY($1::int[]) AND
solved_at IS NULL` (part_011 lines 407-411). -/
def solveGuarded (cases : List CaseRow) (caseIds : List CaseId)
    (now : Timestamp) : List CaseRow :=
  cases.map (fun c =>
    if caseIds.contains c.id ∧ c.solvedAt = none
    then { c with solvedAt := some now } else c)

/-- The `handleOrderWebhook` of part_011 (lines 371-439).  The guarded
`UPDATE` runs before the `purchases` insert; a duplicate `order_id`
violates the table's unique constraint, aborting the handler after the
update with an error response and skipping the MongoDB log. -/
def handleOrderWebhookB (env : Env) (w : World) (o : OrderB)
    (now : Timestamp) : World × ResponseB :=
  if ¬ env.neonConfigured then (w, .dbNotConfigured)
  else
    match caseIdsAttrValue o with
    | none => (w, .warnNoCaseIds)
    | some v =>
      if v = "" then (w, .warnNoCaseIds)
      else
        let caseIds := parseCaseIds v
        if caseIds.isEmpty then (w, .warnInvalidCaseIds)
        else
          let productIds := (o.lineItems.getD []).map (·.productId)
          let cases' := solveGuarded w.cases caseIds now
          if w.purchases.any (fun p => p.orderId = o.id) then
            ({ w with cases := cases' }, .uniqueViolation)
          else
            let purchases' := w.purchases ++
              [{ orderId := o.id, evidenceIds := productIds,
                 caseIds := caseIds, totalAmount := o.totalPrice }]
            let activities' :=
              if env.mongoConfigured then
                w.activities ++ [⟨"case_solved", caseIds, o.id, now⟩]
              else w.activities
            ({ w with
                cases := cases'
                purchases := purchases'
                activities := activities' },
             .ok caseIds.length)

/-! ## Activity stream polling loop (part_010 lines 744-794)

`let lastTimestamp = new Date(Date.now() - 10000)`, then every 3 seconds
`mongoFind(env, 'activities', { timestamp: { $gt: lastTimestamp } },
{ sort: { timestamp: 1 }, limit: 10 })`, the matching events are pushed
in order, and `lastTimestamp` advances to the last delivered event's
timestamp when any were delivered. -/

/-- An entry of the `activities` collection as seen by the stream: its
timestamp and an identity distinguishing distinct documents. -/
structure StreamEvent where
  ts : Timestamp
  eid : Nat
  deriving DecidableEq, Repr

/-- Timestamp order on stream events (the `sort: { timestamp: 1 }` of the
poll query). -/
def tsLe (a b : StreamEvent) : Prop := a.ts ≤ b.ts

instance : DecidableRel tsLe := fun a b => Nat.decLe a.ts b.ts

instance : IsTotal StreamEvent tsLe := ⟨fun a b => Nat.le_total a.ts b.ts⟩

instance : IsTrans StreamEvent tsLe := ⟨fun _ _ _ h h' => Nat.le_trans h h'⟩

/-- The initializer `new Date(Date.now() - 10000)`: the connection's watermark starts ten
seconds before subscribe time (part_010 line 746). -/
def initialWatermark (now : Timestamp) : Timestamp := now - 10000

/-- One poll cycle: the query `timestamp > watermark`, ascending sort,
`limit: 10`; the watermark advances to the last delivered timestamp when
the batch is non-empty. -/
def pollOnce (wm : Timestamp) (log : List StreamEvent) :
    List StreamEvent × Timestamp :=
  let delivered :=
    (((log.filter (fun e => wm < e.ts)).insertionSort tsLe).take 10)
  (delivered,
   match delivered.getLast? with
   | none => wm
   | some e => e.ts)

/-- Consecutive poll cycles of one observer connection: each cycle sees
the (possibly grown) activity log of that instant and the watermark
carried over from the previous cycle.  Returns the per-cycle delivered
batches and the final watermark. -/
def runPolls (wm : Timestamp) : List (List StreamEvent) →
    List (List StreamEvent) × Timestamp
  | [] => ([], wm)
  | log :: rest =>
    let p := pollOnce wm log
    let r := runPolls p.2 rest
    (p.1 :: r.1, r.2)

/-! ## Analytics endpoint (part_010 lines 849-952)

`handleActivityAnalytics` runs `mongoFind` plus three aggregation
pipelines over `activities` in the trailing 24 hours and returns the
rollups; its catch clause answers `jsonResponse({ error, recent_activities:
[], top_cases: [], top_evidence: [], activity_types: [] }, 500)`.  When
MongoDB is not configured, `mongoFind`/`mongoAggregate` return
`{ documents: [] }` instead of querying (part_010 lines 480-484). -/

/-- An `activities` document as consumed by the analytics pipelines. -/
structure ActivityDoc where
  type : String
  caseId : Option CaseId
  evidenceId : Option EvidenceId
  ts : Timestamp
  deriving DecidableEq, Repr

/-- The state of the MongoDB activity log: not configured (queries
short-circuit to empty documents), unavailable (queries throw), or
available with its documents. -/
inductive Mongo where
  | notConfigured
  | unavailable
  | available (docs : List ActivityDoc)
  deriving Repr

/-- Result of a `mongoFind`/`mongoAggregate` call against the log. -/
def mongoDocs : Mongo → Except String (List ActivityDoc)
  | .notConfigured => .ok []
  | .unavailable => .error "MongoDB find failed"
  | .available docs => .ok docs

/-- Distinct values in first-occurrence order (the `$group` stage's key
set). -/
def distinctKeys {α : Type} [DecidableEq α] (l : List α) : List α :=
  l.foldl (fun acc k => if acc.contains k then acc else acc ++ [k]) []

/-- A `$group` with `$sum: 1`: each distinct key with its count. -/
def groupCounts {α : Type} [DecidableEq α] (l : List α) : List (α × Nat) :=
  (distinctKeys l).map (fun k => (k, (l.filter (fun x => x = k)).length))

/-- Descending count order on grouped rows. -/
def countDesc {α : Type} (a b : α × Nat) : Prop := b.2 ≤ a.2

instance {α : Type} : DecidableRel (countDesc (α := α)) :=
  fun a b => Nat.decLe b.2 a.2

/-- Descending timestamp order on documents (the recent-activities
query's `sort: { timestamp: -1 }`). -/
def docTsDesc (a b : ActivityDoc) : Prop := b.ts ≤ a.ts

instance : DecidableRel docTsDesc := fun a b => Nat.decLe b.ts a.ts

/-- The analytics endpoint's response: an HTTP status plus the four
lists. -/
structure AnalyticsResponse where
  status : Nat
  recentActivities : List ActivityDoc
  topCases : List (Option CaseId × Nat)
  topEvidence : List (Option EvidenceId × Nat)
  activityTypes : List (String × Nat)
  deriving DecidableEq, Repr

/-- The `handleActivityAnalytics` handler (part_010 lines 850-952): on any query
failure the catch returns status 500 with the four lists empty; otherwise
the recent 20 activities by descending timestamp, the top 5 viewed cases
and top 10 carted evidence ids of the last 24 hours, and the count by
activity type. -/
def handleActivityAnalytics (m : Mongo) (now : Timestamp) :
    AnalyticsResponse :=
  match mongoDocs m with
  | .error _ =>
    { status := 500, recentActivities := [], topCases := [],
      topEvidence := [], activityTypes := [] }
  | .ok docs =>
    let oneDayAgo := now - 86400000
    let recent := (docs.insertionSort docTsDesc).take 20
    let viewed := (docs.filter
      (fun d => d.type = "case_viewed" ∧ oneDayAgo ≤ d.ts)).map (·.caseId)
    let topCases := ((groupCounts viewed).insertionSort countDesc).take 5
    let carted := (docs.filter
      (fun d => d.type = "cart_add" ∧ oneDayAgo ≤ d.ts)).map (·.evidenceId)
    let topEvidence := ((groupCounts carted).insertionSort countDesc).take 10
    let types := (docs.filter (fun d => oneDayAgo ≤ d.ts)).map (·.type)
    let activityTypes := (groupCounts types).insertionSort countDesc
    { status := 200, recentActivities := recent, topCases := topCases,
      topEvidence := topEvidence, activityTypes := activityTypes }

/-- Sequential processing of a stream of incoming order webhooks by the
part_011 handler. -/
def processOrders (env : Env) (w : World) :
    List (OrderB × Timestamp) → World
  | [] => w
  | p :: rest => processOrders env (handleOrderWebhookB env w p.1 p.2).1 rest

/-! ## Theorems -/

/-- A row whose `solved_at` is already set passes through the guarded
`UPDATE` untouched. -/
theorem solveGuarded_mem_of_solved {cs : List CaseRow} {ids : List CaseId}
    {now : Timestamp} {c : CaseRow} {t : Timestamp}
    (hc : c ∈ cs) (hs : c.solvedAt = some t) :
    c ∈ solveGuarded cs ids now := by
  unfold solveGuarded
  refine List.mem_map.mpr ⟨c, hc, ?_⟩
  rw [if_neg]
  intro h
  rw [hs] at h
  exact Option.noConfusion h.2

/-- Every row of the guarded `UPDATE`'s output is either an unchanged
input row or an input row that was unsolved and is now solved at `now`. -/
theorem solveGuarded_mem_rev {cs : List CaseRow} {ids : List CaseId}
    {now : Timestamp} {c' : CaseRow}
    (h : c' ∈ solveGuarded cs ids now) :
    c' ∈ cs ∨ (c'.solvedAt = some now ∧ { c' with solvedAt := none } ∈ cs) := by
  unfold solveGuarded at h
  obtain ⟨c, hc, hfc⟩ := List.mem_map.mp h
  by_cases hcond : ids.contains c.id ∧ c.solvedAt = none
  · right
    rw [if_pos hcond] at hfc
    subst hfc
    refine ⟨rfl, ?_⟩
    have hc' : ({ { c with solvedAt := some now } with solvedAt := none }
        : CaseRow) = c := by
      cases c with
      | mk i s =>
        simp only [CaseRow.mk.injEq, true_and]
        exact hcond.2.symm
    rw [hc']
    exact hc
  · left
    rw [if_neg hcond] at hfc
    subst hfc
    exact hc

/-- Running the guarded `UPDATE` twice with the same case ids is the same
as running it once: after the first pass every targeted row is solved,
so the second pass's `solved_at IS NULL` guard matches nothing. -/
theorem solveGuarded_idem (cs : List CaseRow) (ids : List CaseId)
    (t1 t2 : Timestamp) :
    solveGuarded (solveGuarded cs ids t1) ids t2 = solveGuarded cs ids t1 := by
  unfold solveGuarded
  rw [List.map_map]
  induction cs with
  | nil => rfl
  | cons c rest ih =>
    rw [List.map_cons, List.map_cons, ih]
    congr 1
    by_cases hcond : ids.contains c.id ∧ c.solvedAt = none
    · simp only [Function.comp_apply, if_pos hcond]
      rw [if_neg]
      intro h
      exact Option.noConfusion h.2
    · simp only [Function.comp_apply, if_neg hcond]

/-- The part_011 webhook either leaves the `cases` table unchanged or
replaces it with the guarded `UPDATE`'s output for the parsed case
ids. -/
theorem handleOrderWebhookB_cases_shape (env : Env) (w : World) (o : OrderB)
    (now : Timestamp) :
    (handleOrderWebhookB env w o now).1.cases = w.cases ∨
    ∃ ids, (handleOrderWebhookB env w o now).1.cases =
      solveGuarded w.cases ids now := by
  unfold handleOrderWebhookB
  by_cases hneon : env.neonConfigured
  case neg =>
    rw [if_pos]
    · exact Or.inl rfl
    · simpa using hneon
  case pos =>
    rw [if_neg (by simpa using hneon)]
    cases hv : caseIdsAttrValue o with
    | none => exact Or.inl rfl
    | some v =>
      dsimp only
      by_cases hve : v = ""
      · rw [if_pos hve]
        exact Or.inl rfl
      · rw [if_neg hve]
        by_cases hempty : (parseCaseIds v).isEmpty
        · rw [if_pos hempty]
          exact Or.inl rfl
        · rw [if_neg hempty]
          by_cases hdup : w.purchases.any (fun p => p.orderId = o.id)
          · rw [if_pos hdup]
            exact Or.inr ⟨parseCaseIds v, rfl⟩
          · rw [if_neg hdup]
            exact Or.inr ⟨parseCaseIds v, rfl⟩

/-- A solved row survives one webhook invocation unchanged. -/
theorem handleOrderWebhookB_preserves_solved {env : Env} {w : World}
    {o : OrderB} {now : Timestamp} {c : CaseRow} {t : Timestamp}
    (hc : c ∈ w.cases) (hs : c.solvedAt = some t) :
    c ∈ (handleOrderWebhookB env w o now).1.cases := by
  rcases handleOrderWebhookB_cases_shape env w o now with h | ⟨ids, h⟩
  · rw [h]
    exact hc
  · rw [h]
    exact solveGuarded_mem_of_solved hc hs

/-- C4: the per-case state machine is monotone and terminal.  Once a
case's solved timestamp is set, no sequence of subsequent order-webhook
invocations reverts it to absent or overwrites it (the row survives
verbatim); and any row a single webhook invocation changes was unsolved
at write time and carries exactly the new `NOW()` timestamp — the
`UNSOLVED -> SOLVED` transition commits only under the
`solved_at IS NULL` guard. -/
theorem handleOrderWebhookB_monotone_terminal (env : Env) (w : World) :
    (∀ os c t, c ∈ w.cases → c.solvedAt = some t →
      c ∈ (processOrders env w os).cases) ∧
    (∀ o now c', c' ∈ (handleOrderWebhookB env w o now).1.cases →
      c' ∉ w.cases →
      c'.solvedAt = some now ∧ { c' with solvedAt := none } ∈ w.cases) := by
  constructor
  · intro os
    induction os generalizing w with
    | nil => intro c t hc _; exact hc
    | cons p rest ih =>
      intro c t hc hs
      exact ih _ c t (handleOrderWebhookB_preserves_solved hc hs) hs
  · intro o now c' hc' hnotin
    rcases handleOrderWebhookB_cases_shape env w o now with h | ⟨ids, h⟩
    · rw [h] at hc'
      exact absurd hc' hnotin
    · rw [h] at hc'
      rcases solveGuarded_mem_rev hc' with h1 | h2
      · exact absurd h1 hnotin
      · exact h2

/-- Run equation for the part_011 webhook once all three attribute guards
pass: the handler updates the cases, then either hits the
`purchases.order_id` unique constraint or appends the purchase row (and
the activity when MongoDB is configured). -/
theorem handleOrderWebhookB_run (env : Env) (w : World) (o : OrderB)
    (now : Timestamp) (v : String)
    (hneon : env.neonConfigured = true)
    (hv : caseIdsAttrValue o = some v)
    (hve : v ≠ "")
    (hempty : ¬ (parseCaseIds v).isEmpty = true) :
    handleOrderWebhookB env w o now =
      if w.purchases.any (fun p => p.orderId = o.id) then
        ({ w with cases := solveGuarded w.cases (parseCaseIds v) now },
         .uniqueViolation)
      else
        ({ w with
            cases := solveGuarded w.cases (parseCaseIds v) now
            purchases := w.purchases ++
              [{ orderId := o.id,
                 evidenceIds := (o.lineItems.getD []).map (·.productId),
                 caseIds := parseCaseIds v, totalAmount := o.totalPrice }]
            activities := if env.mongoConfigured then
                w.activities ++ [⟨"case_solved", parseCaseIds v, o.id, now⟩]
              else w.activities },
         .ok (parseCaseIds v).length) := by
  unfold handleOrderWebhookB
  simp only [hneon, not_true_eq_false, if_false]
  rw [hv]
  dsimp only
  rw [if_neg hve, if_neg hempty]

/-- C2 (amended): sequentially submitting the order webhook for the same
order more than once produces exactly one `purchases` row and exactly one
set of newly-solved cases (the first successful call's); every subsequent
call for the same order id changes no state — but instead of being a
successful no-op it fails with the `purchases.order_id` unique-constraint
error, answered as an HTTP 500 error response. -/
theorem handleOrderWebhookB_at_most_once (env : Env) (w : World)
    (o : OrderB) (t1 t2 : Timestamp) (n : Nat)
    (hneon : env.neonConfigured = true)
    (hok : (handleOrderWebhookB env w o t1).2 = .ok n) :
    handleOrderWebhookB env (handleOrderWebhookB env w o t1).1 o t2 =
      ((handleOrderWebhookB env w o t1).1, .uniqueViolation) ∧
    (((handleOrderWebhookB env w o t1).1).purchases.filter
      (fun p => p.orderId = o.id)).length = 1 := by
  rcases hv : caseIdsAttrValue o with _ | v
  · exfalso
    have hrun : (handleOrderWebhookB env w o t1).2 = .warnNoCaseIds := by
      unfold handleOrderWebhookB
      simp only [hneon, not_true_eq_false, if_false]
      rw [hv]
    exact ResponseB.noConfusion (hrun.symm.trans hok)
  by_cases hve : v = ""
  · exfalso
    have hrun : (handleOrderWebhookB env w o t1).2 = .warnNoCaseIds := by
      unfold handleOrderWebhookB
      simp only [hneon, not_true_eq_false, if_false]
      rw [hv]
      dsimp only
      rw [if_pos hve]
    exact ResponseB.noConfusion (hrun.symm.trans hok)
  by_cases hempty : (parseCaseIds v).isEmpty = true
  · exfalso
    have hrun : (handleOrderWebhookB env w o t1).2 = .warnInvalidCaseIds := by
      unfold handleOrderWebhookB
      simp only [hneon, not_true_eq_false, if_false]
      rw [hv]
      dsimp only
      rw [if_neg hve, if_pos hempty]
    exact ResponseB.noConfusion (hrun.symm.trans hok)
  by_cases hdup : w.purchases.any (fun p => p.orderId = o.id)
  · exfalso
    have hrun : (handleOrderWebhookB env w o t1).2 = .uniqueViolation := by
      rw [handleOrderWebhookB_run env w o t1 v hneon hv hve hempty,
        if_pos hdup]
    exact ResponseB.noConfusion (hrun.symm.trans hok)
  have hrun1 := handleOrderWebhookB_run env w o t1 v hneon hv hve hempty
  rw [if_neg hdup] at hrun1
  have hfil : w.purchases.filter (fun p => p.orderId = o.id) = [] := by
    refine List.filter_eq_nil_iff.mpr ?_
    intro p hp
    simp only [decide_eq_true_eq]
    intro hpe
    exact hdup (List.any_eq_true.mpr ⟨p, hp, by simp [hpe]⟩)
  rw [hrun1]
  dsimp only
  constructor
  · rw [handleOrderWebhookB_run env _ o t2 v hneon hv hve hempty,
      if_pos (by simp [List.any_append])]
    dsimp only
    rw [solveGuarded_idem]
  · rw [List.filter_append, hfil]
    simp

/-- C2 witness: the at-most-once theorem on a concrete first call that
solves case 1 and records order `o1`. -/
theorem handleOrderWebhookB_at_most_once_witness :
    handleOrderWebhookB ⟨true, true⟩
      (handleOrderWebhookB ⟨true, true⟩ ⟨[⟨1, none⟩], [], [], [], []⟩
        ⟨"o1", some [⟨some "case_ids", none, some "1"⟩], none,
          some [⟨"A"⟩], 10⟩ 100).1
      ⟨"o1", some [⟨some "case_ids", none, some "1"⟩], none,
        some [⟨"A"⟩], 10⟩ 200 =
      ((handleOrderWebhookB ⟨true, true⟩ ⟨[⟨1, none⟩], [], [], [], []⟩
        ⟨"o1", some [⟨some "case_ids", none, some "1"⟩], none,
          some [⟨"A"⟩], 10⟩ 100).1, .uniqueViolation) ∧
    (((handleOrderWebhookB ⟨true, true⟩ ⟨[⟨1, none⟩], [], [], [], []⟩
        ⟨"o1", some [⟨some "case_ids", none, some "1"⟩], none,
          some [⟨"A"⟩], 10⟩ 100).1).purchases.filter
      (fun p => p.orderId = "o1")).length = 1 :=
  handleOrderWebhookB_at_most_once ⟨true, true⟩
    ⟨[⟨1, none⟩], [], [], [], []⟩
    ⟨"o1", some [⟨some "case_ids", none, some "1"⟩], none,
      some [⟨"A"⟩], 10⟩ 100 200 1 rfl (by decide)

/-- C4 witness: a case solved at time 5 survives two further webhook
invocations, and the row the first invocation adds was unsolved before
and is stamped with the invocation's `NOW()`. -/
theorem handleOrderWebhookB_monotone_terminal_witness :
    (⟨1, some 5⟩ : CaseRow) ∈ (processOrders ⟨true, true⟩
      ⟨[⟨1, some 5⟩, ⟨2, none⟩], [], [], [], []⟩
      [(⟨"o1", some [⟨some "case_ids", none, some "2"⟩], none,
          some [⟨"A"⟩], 10⟩, 100),
       (⟨"o2", some [⟨some "case_ids", none, some "1,2"⟩], none,
          some [⟨"B"⟩], 20⟩, 200)]).cases ∧
    ((⟨2, some 100⟩ : CaseRow).solvedAt = some 100 ∧
      ({ (⟨2, some 100⟩ : CaseRow) with solvedAt := none } : CaseRow) ∈
        [(⟨1, some 5⟩ : CaseRow), ⟨2, none⟩]) :=
  ⟨(handleOrderWebhookB_monotone_terminal ⟨true, true⟩
      ⟨[⟨1, some 5⟩, ⟨2, none⟩], [], [], [], []⟩).1
    [(⟨"o1", some [⟨some "case_ids", none, some "2"⟩], none,
        some [⟨"A"⟩], 10⟩, 100),
     (⟨"o2", some [⟨some "case_ids", none, some "1,2"⟩], none,
        some [⟨"B"⟩], 20⟩, 200)]
    ⟨1, some 5⟩ 5 (by decide) rfl,
   (handleOrderWebhookB_monotone_terminal ⟨true, true⟩
      ⟨[⟨1, some 5⟩, ⟨2, none⟩], [], [], [], []⟩).2
    ⟨"o1", some [⟨some "case_ids", none, some "2"⟩], none,
      some [⟨"A"⟩], 10⟩ 100 ⟨2, some 100⟩ (by decide) (by decide)⟩

/-- C3: Recording a purchased evidence unit is idempotent: recording `e`
twice via the `ON CONFLICT (evidence_id) DO NOTHING` ledger insert yields
exactly the same ledger state as recording it once, the second recording
never fails and never creates a duplicate row (key uniqueness is
preserved), and it reports that nothing new was recorded
(`newly_recorded = false`). -/
theorem recordPurchased_idempotent (l : List (EvidenceId × OrderId))
    (e : EvidenceId) (o o' : OrderId)
    (hnodup : (ledgerIds l).Nodup) :
    recordPurchased (recordPurchased l e o).1 e o' =
      ((recordPurchased l e o).1, false) ∧
    (ledgerIds (recordPurchased (recordPurchased l e o).1 e o').1).Nodup := by
  by_cases h : l.any (fun r => r.1 = e)
  · have h1 : recordPurchased l e o = (l, false) := by
      unfold recordPurchased
      rw [if_pos h]
    rw [h1]
    have h2 : recordPurchased l e o' = (l, false) := by
      unfold recordPurchased
      rw [if_pos h]
    exact ⟨h2, by rw [h2]; exact hnodup⟩
  · have h1 : recordPurchased l e o = (l ++ [(e, o)], true) := by
      unfold recordPurchased
      rw [if_neg h]
    rw [h1]
    have hmem : (l ++ [(e, o)]).any (fun r => r.1 = e) := by
      simp [List.any_eq_true]
    have h2 : recordPurchased (l ++ [(e, o)]) e o' = (l ++ [(e, o)], false) := by
      unfold recordPurchased
      rw [if_pos hmem]
    refine ⟨h2, ?_⟩
    rw [h2]
    have hnotin : e ∉ ledgerIds l := by
      intro hin
      apply h
      simp only [ledgerIds, List.mem_map] at hin
      obtain ⟨r, hr, hre⟩ := hin
      simp only [List.any_eq_true]
      exact ⟨r, hr, by simp [hre]⟩
    simp only [ledgerIds, List.map_append, List.map_cons, List.map_nil]
    refine List.Nodup.append hnodup (List.nodup_singleton e) ?_
    intro a ha hb
    simp only [List.mem_singleton] at hb
    exact hnotin (hb ▸ ha)

/-- C3 witness: the idempotence theorem applied to the empty ledger. -/
theorem recordPurchased_idempotent_witness :
    recordPurchased (recordPurchased [] "A" "o1").1 "A" "o2" =
      ((recordPurchased [] "A" "o1").1, false) ∧
    (ledgerIds (recordPurchased (recordPurchased [] "A" "o1").1 "A" "o2").1).Nodup :=
  recordPurchased_idempotent [] "A" "o1" "o2" (by decide)

/-- C10: the reset-progress operation empties the `purchased_evidence`
ledger and sets every case's solved timestamp to absent (changing nothing
else about the case rows), while the `purchases` table, the
`case_evidence` index and the activity log are untouched. -/
theorem resetProgress_spec (w : World) :
    (resetProgress w).purchasedEvidence = [] ∧
    (resetProgress w).cases =
      w.cases.map (fun c => { c with solvedAt := none }) ∧
    (∀ c ∈ (resetProgress w).cases, c.solvedAt = none) ∧
    (resetProgress w).purchases = w.purchases ∧
    (resetProgress w).caseEvidence = w.caseEvidence ∧
    (resetProgress w).activities = w.activities := by
  refine ⟨rfl, rfl, ?_, rfl, rfl, rfl⟩
  intro c hc
  simp only [resetProgress, List.mem_map] at hc
  obtain ⟨c₀, _, hc₀⟩ := hc
  rw [← hc₀]

/-- C10 witness: the reset theorem applied to a concrete world with a
solved case, a purchase row and a non-empty ledger. -/
theorem resetProgress_spec_witness :
    (resetProgress ⟨[⟨1, some 7⟩], [(1, "A")], [⟨"o1", ["A"], [1], 10⟩],
        [("A", "o1")], [⟨"case_solved", [1], "o1", 7⟩]⟩).purchasedEvidence = [] ∧
    (resetProgress ⟨[⟨1, some 7⟩], [(1, "A")], [⟨"o1", ["A"], [1], 10⟩],
        [("A", "o1")], [⟨"case_solved", [1], "o1", 7⟩]⟩).cases =
      ([⟨1, some 7⟩] : List CaseRow).map (fun c => { c with solvedAt := none }) ∧
    (∀ c ∈ (resetProgress ⟨[⟨1, some 7⟩], [(1, "A")], [⟨"o1", ["A"], [1], 10⟩],
        [("A", "o1")], [⟨"case_solved", [1], "o1", 7⟩]⟩).cases, c.solvedAt = none) ∧
    (resetProgress ⟨[⟨1, some 7⟩], [(1, "A")], [⟨"o1", ["A"], [1], 10⟩],
        [("A", "o1")], [⟨"case_solved", [1], "o1", 7⟩]⟩).purchases =
      [⟨"o1", ["A"], [1], 10⟩] ∧
    (resetProgress ⟨[⟨1, some 7⟩], [(1, "A")], [⟨"o1", ["A"], [1], 10⟩],
        [("A", "o1")], [⟨"case_solved", [1], "o1", 7⟩]⟩).caseEvidence = [(1, "A")] ∧
    (resetProgress ⟨[⟨1, some 7⟩], [(1, "A")], [⟨"o1", ["A"], [1], 10⟩],
        [("A", "o1")], [⟨"case_solved", [1], "o1", 7⟩]⟩).activities =
      [⟨"case_solved", [1], "o1", 7⟩] :=
  resetProgress_spec ⟨[⟨1, some 7⟩], [(1, "A")], [⟨"o1", ["A"], [1], 10⟩],
    [("A", "o1")], [⟨"case_solved", [1], "o1", 7⟩]⟩

/-- C9: a webhook payload carrying no `case_ids` attribute, or whose
`case_ids` value parses to an empty list of integers, is answered with a
successful response and performs no database write at all: the returned
world is the input world unchanged (no case transition, no purchase
insert, no activity event). -/
theorem handleOrderWebhookB_noop_on_missing_caseIds (env : Env) (w : World)
    (o : OrderB) (now : Timestamp)
    (hneon : env.neonConfigured = true)
    (hids : ∀ v, caseIdsAttrValue o = some v → parseCaseIds v = []) :
    (handleOrderWebhookB env w o now).1 = w ∧
    ((handleOrderWebhookB env w o now).2).success = true := by
  unfold handleOrderWebhookB
  simp only [hneon, not_true_eq_false, if_false]
  cases hv : caseIdsAttrValue o with
  | none => exact ⟨rfl, rfl⟩
  | some v =>
    dsimp only
    by_cases hve : v = ""
    · rw [if_pos hve]
      exact ⟨rfl, rfl⟩
    · rw [if_neg hve]
      have hempty : (parseCaseIds v).isEmpty = true := by
        rw [hids v hv]
        rfl
      rw [if_pos hempty]
      exact ⟨rfl, rfl⟩

/-- C9 witness: the no-op theorem applied to a payload whose `case_ids`
attribute value `"x,y"` parses to no integers. -/
theorem handleOrderWebhookB_noop_witness :
    (handleOrderWebhookB ⟨true, true⟩
      ⟨[⟨1, none⟩], [], [], [], []⟩
      ⟨"o1", some [⟨some "case_ids", none, some "x,y"⟩], none,
        some [⟨"A"⟩], 10⟩ 100).1 =
      ⟨[⟨1, none⟩], [], [], [], []⟩ ∧
    ((handleOrderWebhookB ⟨true, true⟩
      ⟨[⟨1, none⟩], [], [], [], []⟩
      ⟨"o1", some [⟨some "case_ids", none, some "x,y"⟩], none,
        some [⟨"A"⟩], 10⟩ 100).2).success = true :=
  handleOrderWebhookB_noop_on_missing_caseIds ⟨true, true⟩
    ⟨[⟨1, none⟩], [], [], [], []⟩
    ⟨"o1", some [⟨some "case_ids", none, some "x,y"⟩], none,
      some [⟨"A"⟩], 10⟩ 100 rfl
    (by intro v hv; cases hv; rfl)

/-- C1: evaluating the part_010 webhook on the spec's own cross-order
scenario.  Case 1 requires evidence `{A, B}`; order `o1` conveys `A` and
order `o2` conveys `B`.  After both orders the `purchased_evidence`
ledger covers the whole requirement, yet the webhook leaves case 1
unsolved and reports no solved cases for `o2`, because its coverage test
`c.required.every(req => evidenceIds.includes(req))` consults only the
current order's evidence ids, never the ledger it just wrote. -/
theorem handleOrderWebhookA_crossOrder_fails :
    ((aggRequired ((handleOrderWebhookA ⟨true, true⟩
        ((handleOrderWebhookA ⟨true, true⟩
          ⟨[⟨1, none⟩], [(1, "A"), (1, "B")], [], [], []⟩
          "o1" [⟨"A"⟩] 100).1)
        "o2" [⟨"B"⟩] 200).1).caseEvidence 1).all
      (fun req => req ∈ (ledgerIds ((handleOrderWebhookA ⟨true, true⟩
        ((handleOrderWebhookA ⟨true, true⟩
          ⟨[⟨1, none⟩], [(1, "A"), (1, "B")], [], [], []⟩
          "o1" [⟨"A"⟩] 100).1)
        "o2" [⟨"B"⟩] 200).1).purchasedEvidence).map some) = true) ∧
    ((handleOrderWebhookA ⟨true, true⟩
        ((handleOrderWebhookA ⟨true, true⟩
          ⟨[⟨1, none⟩], [(1, "A"), (1, "B")], [], [], []⟩
          "o1" [⟨"A"⟩] 100).1)
        "o2" [⟨"B"⟩] 200).1).cases = [⟨1, none⟩] ∧
    ((handleOrderWebhookA ⟨true, true⟩
        ((handleOrderWebhookA ⟨true, true⟩
          ⟨[⟨1, none⟩], [(1, "A"), (1, "B")], [], [], []⟩
          "o1" [⟨"A"⟩] 100).1)
        "o2" [⟨"B"⟩] 200).2) = .ok 1 [] := by
  decide

/-- C2 counterexample: resubmitting the same order `o1` is not a
successful no-op.  The second call hits the `purchases.order_id` unique
constraint and the worker answers with an error response
(`success = false`). -/
theorem handleOrderWebhookB_duplicate_not_success :
    ((handleOrderWebhookB ⟨true, true⟩
      ((handleOrderWebhookB ⟨true, true⟩
        ⟨[⟨1, none⟩], [], [], [], []⟩
        ⟨"o1", some [⟨some "case_ids", none, some "1"⟩], none,
          some [⟨"A"⟩], 10⟩ 100).1)
      ⟨"o1", some [⟨some "case_ids", none, some "1"⟩], none,
        some [⟨"A"⟩], 10⟩ 200).2).success = false := by
  decide

/-- C7 counterexample: when the activity log is unavailable the analytics
endpoint does not return a successful result: its catch clause answers
with HTTP status 500 (the lists are empty, but the failure is signalled
to the caller). -/
theorem handleActivityAnalytics_unavailable_not_success :
    (handleActivityAnalytics .unavailable 0).status = 500 := by
  rfl

/-- C7 (amended): if the activity log is empty or MongoDB is not
configured, the analytics endpoint returns a successful (status 200)
response with empty lists for recent activities, top cases, top evidence
and activity-type counts; if the log is unavailable (the queries fail),
it returns the same empty lists but with error status 500, so the
failure is signalled to the caller rather than silently swallowed. -/
theorem handleActivityAnalytics_degrade (m : Mongo) (now : Timestamp) :
    (m = .notConfigured ∨ m = .available [] →
      handleActivityAnalytics m now =
        ⟨200, [], [], [], []⟩) ∧
    (m = .unavailable →
      handleActivityAnalytics m now =
        ⟨500, [], [], [], []⟩) := by
  constructor
  · rintro (rfl | rfl) <;> rfl
  · rintro rfl
    rfl

/-- C7 witness: the degrade theorem applied to the empty available log
and to the unavailable log. -/
theorem handleActivityAnalytics_degrade_witness :
    handleActivityAnalytics (.available []) 0 = ⟨200, [], [], [], []⟩ ∧
    handleActivityAnalytics .unavailable 0 = ⟨500, [], [], [], []⟩ :=
  ⟨(handleActivityAnalytics_degrade (.available []) 0).1 (Or.inr rfl),
   (handleActivityAnalytics_degrade .unavailable 0).2 rfl⟩

/-- C6 counterexample: an event timestamped 15000, five seconds *before*
the observer subscribes at 20000, is delivered on the connection's first
poll — the watermark is initialized to `Date.now() - 10000`, ten seconds
before subscribe time, not to "now". -/
theorem initialWatermark_delivers_pre_subscribe_event :
    ((⟨15000, 0⟩ : StreamEvent) ∈
      (pollOnce (initialWatermark 20000) [⟨15000, 0⟩]).1) ∧
    15000 < 20000 := by
  decide

/-- C6 (amended): the connection's watermark is initialized to ten
seconds before the subscribe-time "now" (`Date.now() - 10000`), so only
events with timestamps strictly after `now - 10000` are delivered on the
first poll — a bound that admits events from the ten seconds preceding
the subscription, as the counterexample exhibits. -/
theorem initialWatermark_spec (now : Timestamp) (log : List StreamEvent) :
    initialWatermark now = now - 10000 ∧
    ∀ e ∈ (pollOnce (initialWatermark now) log).1, now - 10000 < e.ts := by
  refine ⟨rfl, ?_⟩
  intro e he
  have h1 : e ∈ ((log.filter
      (fun x => initialWatermark now < x.ts)).insertionSort tsLe).take 10 := he
  have h2 := List.mem_of_mem_take h1
  rw [List.mem_insertionSort] at h2
  have h3 := List.of_mem_filter h2
  simpa [initialWatermark] using h3

/-- C6 witness: the amended watermark theorem at subscribe time 20000
with a single event in the log. -/
theorem initialWatermark_spec_witness :
    initialWatermark 20000 = 20000 - 10000 ∧
    ∀ e ∈ (pollOnce (initialWatermark 20000)
      [(⟨15000, 0⟩ : StreamEvent)]).1, 20000 - 10000 < e.ts :=
  initialWatermark_spec 20000 [⟨15000, 0⟩]

/-- A case with no `case_evidence` rows is never collected by the solving
loop: its aggregated requirement list is `[NULL]` and `NULL` is never
among an order's evidence ids. -/
theorem webhookSolvedCaseIds_not_mem_of_empty_requirements {w : World}
    {c : CaseRow}
    (hempty : w.caseEvidence.filter (fun r => r.1 = c.id) = []) :
    ∀ evidenceIds, c.id ∉ webhookSolvedCaseIds w evidenceIds := by
  intro ev hmem
  unfold webhookSolvedCaseIds at hmem
  obtain ⟨c', hc', hid⟩ := List.mem_map.mp hmem
  obtain ⟨_, hcov⟩ := List.mem_filter.mp hc'
  simp only [decide_eq_true_eq, List.all_eq_true] at hcov
  have hnone : (none : Option EvidenceId) ∈ aggRequired w.caseEvidence c'.id := by
    unfold aggRequired
    rw [hid, hempty]
    simp
  have := hcov none hnone
  obtain ⟨a, _, ha⟩ := List.mem_map.mp this
  exact Option.noConfusion ha

/-- C8: a case with no `case_evidence` rows (an empty requirement set) is
never marked solved by the part_010 order webhook.  The LEFT JOIN
aggregation yields the required list `[NULL]`, `NULL` is never among an
order's evidence ids, so the coverage test always fails: the case id is
absent from the reported solved set and the case's row survives the
invocation unchanged (still unsolved). -/
theorem handleOrderWebhookA_empty_requirements_never_solved (env : Env)
    (w : World) (orderId : OrderId) (lineItems : List LineItem)
    (now : Timestamp) (c : CaseRow) (hc : c ∈ w.cases)
    (hempty : w.caseEvidence.filter (fun r => r.1 = c.id) = [])
    (hunsolved : c.solvedAt = none) :
    aggRequired w.caseEvidence c.id = [none] ∧
    (∀ cnt ids, (handleOrderWebhookA env w orderId lineItems now).2 =
      .ok cnt ids → c.id ∉ ids) ∧
    c.solvedAt = none ∧
    c ∈ (handleOrderWebhookA env w orderId lineItems now).1.cases := by
  have hagg : aggRequired w.caseEvidence c.id = [none] := by
    unfold aggRequired
    rw [hempty]
    rfl
  have hnot := webhookSolvedCaseIds_not_mem_of_empty_requirements hempty
  unfold handleOrderWebhookA
  by_cases hneon : env.neonConfigured
  case neg =>
    rw [if_pos (by simpa using hneon)]
    refine ⟨hagg, ?_, hunsolved, hc⟩
    intro cnt ids h
    exact ResponseA.noConfusion h
  case pos =>
    rw [if_neg (by simpa using hneon)]
    dsimp only
    refine ⟨hagg, ?_, hunsolved, ?_⟩
    · intro cnt ids h
      have hids : ids = webhookSolvedCaseIds w (lineItems.map (·.productId)) := by
        injection h with _ h2
        exact h2.symm
      rw [hids]
      exact hnot _
    · by_cases hie :
        (webhookSolvedCaseIds w (lineItems.map (·.productId))).isEmpty = true
      · rw [if_pos hie]
        exact hc
      · rw [if_neg hie]
        refine List.mem_map.mpr ⟨c, hc, ?_⟩
        rw [if_neg]
        intro hcontains
        exact hnot _ (List.mem_of_elem_eq_true hcontains)

/-- C8 witness: a case with an empty requirement set stays unsolved when
an order arrives, while a sibling case with satisfied requirements is
solved. -/
theorem handleOrderWebhookA_empty_requirements_witness :
    aggRequired ([(2, "A")] : List (CaseId × EvidenceId)) 1 = [none] ∧
    (∀ cnt ids, (handleOrderWebhookA ⟨true, true⟩
      ⟨[⟨1, none⟩, ⟨2, none⟩], [(2, "A")], [], [], []⟩
      "o1" [⟨"A"⟩] 100).2 = .ok cnt ids → (1 : CaseId) ∉ ids) ∧
    (⟨1, none⟩ : CaseRow).solvedAt = none ∧
    (⟨1, none⟩ : CaseRow) ∈ (handleOrderWebhookA ⟨true, true⟩
      ⟨[⟨1, none⟩, ⟨2, none⟩], [(2, "A")], [], [], []⟩
      "o1" [⟨"A"⟩] 100).1.cases :=
  handleOrderWebhookA_empty_requirements_never_solved ⟨true, true⟩
    ⟨[⟨1, none⟩, ⟨2, none⟩], [(2, "A")], [], [], []⟩
    "o1" [⟨"A"⟩] 100 ⟨1, none⟩ (by decide) (by decide) rfl

/-- The batch a poll cycle delivers is the sorted, limited query
result. -/
theorem pollOnce_fst (wm : Timestamp) (log : List StreamEvent) :
    (pollOnce wm log).1 =
      ((log.filter (fun e => wm < e.ts)).insertionSort tsLe).take 10 := rfl

/-- A delivered batch is sorted by timestamp (the query's ascending
sort). -/
theorem pollOnce_sorted (wm : Timestamp) (log : List StreamEvent) :
    ((pollOnce wm log).1).Sorted tsLe := by
  rw [pollOnce_fst]
  exact (List.sorted_insertionSort tsLe _).sublist (List.take_sublist 10 _)

/-- Every delivered event's timestamp is strictly above the watermark the
cycle started from (the query is `timestamp > watermark`). -/
theorem pollOnce_mem_gt (wm : Timestamp) (log : List StreamEvent) :
    ∀ e ∈ (pollOnce wm log).1, wm < e.ts := by
  intro e he
  rw [pollOnce_fst] at he
  have h1 := List.mem_of_mem_take he
  rw [List.mem_insertionSort] at h1
  have h2 := List.of_mem_filter h1
  simpa using h2

/-- In a list sorted by timestamp every member's timestamp is at most the
last element's. -/
theorem sorted_mem_le_getLast (l : List StreamEvent) (hs : l.Sorted tsLe)
    (x : StreamEvent) (hx : x ∈ l) (y : StreamEvent)
    (hy : l.getLast? = some y) : x.ts ≤ y.ts := by
  induction l with
  | nil => cases hx
  | cons a t ih =>
    cases t with
    | nil =>
      simp only [List.mem_singleton] at hx
      simp only [List.getLast?_singleton, Option.some.injEq] at hy
      rw [hx, hy]
    | cons b t' =>
      rw [List.getLast?_cons_cons] at hy
      rcases List.mem_cons.mp hx with rfl | hx'
      · have hymem : y ∈ b :: t' := List.mem_of_mem_getLast? hy
        exact List.rel_of_sorted_cons hs y hymem
      · exact ih hs.of_cons hx' hy

/-- The poll's watermark never moves backwards. -/
theorem pollOnce_wm_le (wm : Timestamp) (log : List StreamEvent) :
    wm ≤ (pollOnce wm log).2 := by
  unfold pollOnce
  dsimp only
  rcases hl : (((log.filter (fun e => wm < e.ts)).insertionSort
      tsLe).take 10).getLast? with _ | y
  · rw [hl]
  · rw [hl]
    have hmem := List.mem_of_mem_getLast? hl
    have := pollOnce_mem_gt wm log y (by rw [pollOnce_fst]; exact hmem)
    exact Nat.le_of_lt this

/-- Every delivered event's timestamp is at most the advanced
watermark. -/
theorem pollOnce_mem_le (wm : Timestamp) (log : List StreamEvent) :
    ∀ e ∈ (pollOnce wm log).1, e.ts ≤ (pollOnce wm log).2 := by
  intro e he
  unfold pollOnce
  dsimp only
  rcases hl : (((log.filter (fun e => wm < e.ts)).insertionSort
      tsLe).take 10).getLast? with _ | y
  · exfalso
    rw [pollOnce_fst, List.getLast?_eq_none_iff.mp hl] at he
    cases he
  · rw [hl]
    exact sorted_mem_le_getLast _ (by rw [← pollOnce_fst]; exact pollOnce_sorted wm log)
      e (by rw [← pollOnce_fst]; exact he) y hl

/-- Invariant of a run of consecutive poll cycles: every batch is sorted,
later batches are strictly above earlier ones, every delivered timestamp
lies strictly above the starting watermark and at most the final
watermark, and the watermark never moves backwards. -/
theorem runPolls_invariant (logs : List (List StreamEvent)) :
    ∀ wm,
    (∀ b ∈ (runPolls wm logs).1, b.Sorted tsLe) ∧
    ((runPolls wm logs).1).Pairwise
      (fun b1 b2 => ∀ e ∈ b1, ∀ e' ∈ b2, e.ts < e'.ts) ∧
    (∀ b ∈ (runPolls wm logs).1, ∀ e ∈ b,
      wm < e.ts ∧ e.ts ≤ (runPolls wm logs).2) ∧
    wm ≤ (runPolls wm logs).2 := by
  induction logs with
  | nil =>
    intro wm
    refine ⟨?_, ?_, ?_, Nat.le_refl wm⟩ <;> simp [runPolls]
  | cons log rest ih =>
    intro wm
    obtain ⟨ihSorted, ihPairwise, ihBounds, ihWm⟩ := ih (pollOnce wm log).2
    have hbatches : (runPolls wm (log :: rest)).1 =
        (pollOnce wm log).1 :: (runPolls (pollOnce wm log).2 rest).1 := rfl
    have hwmF : (runPolls wm (log :: rest)).2 =
        (runPolls (pollOnce wm log).2 rest).2 := rfl
    refine ⟨?_, ?_, ?_, ?_⟩
    · rw [hbatches]
      intro b hb
      rcases List.mem_cons.mp hb with rfl | hb'
      · exact pollOnce_sorted wm log
      · exact ihSorted b hb'
    · rw [hbatches]
      refine List.Pairwise.cons ?_ ihPairwise
      intro b' hb' e he e' he'
      have h1 : e.ts ≤ (pollOnce wm log).2 := pollOnce_mem_le wm log e he
      have h2 : (pollOnce wm log).2 < e'.ts := (ihBounds b' hb' e' he').1
      exact Nat.lt_of_le_of_lt h1 h2
    · rw [hbatches, hwmF]
      intro b hb e he
      rcases List.mem_cons.mp hb with rfl | hb'
      · exact ⟨pollOnce_mem_gt wm log e he,
          Nat.le_trans (pollOnce_mem_le wm log e he) ihWm⟩
      · have := ihBounds b hb' e he
        exact ⟨Nat.lt_of_le_of_lt (pollOnce_wm_le wm log) this.1, this.2⟩
    · rw [hwmF]
      exact Nat.le_trans (pollOnce_wm_le wm log) ihWm

/-- C5: across every sequence of consecutive poll cycles of one observer
connection, the delivered events are in non-decreasing timestamp order
(each batch is sorted ascending and every event of a later cycle is
strictly later than every event of an earlier cycle), and no event with
timestamp at or below the advancing watermark is ever delivered twice:
an event delivered in some cycle has timestamp at most that cycle's
advanced watermark, and all later cycles deliver only events with
strictly greater timestamps. -/
theorem activityStream_ordered_no_redelivery (wm : Timestamp)
    (logs : List (List StreamEvent)) :
    (∀ b ∈ (runPolls wm logs).1, b.Sorted tsLe) ∧
    ((runPolls wm logs).1).Pairwise
      (fun b1 b2 => ∀ e ∈ b1, ∀ e' ∈ b2, e.ts < e'.ts) :=
  ⟨(runPolls_invariant logs wm).1, (runPolls_invariant logs wm).2.1⟩

/-- C5 witness: a concrete two-cycle run over a growing log. -/
theorem activityStream_ordered_no_redelivery_witness :
    (∀ b ∈ (runPolls 0 [[⟨3, 0⟩, ⟨1, 1⟩], [⟨3, 0⟩, ⟨1, 1⟩, ⟨5, 2⟩]]).1,
      b.Sorted tsLe) ∧
    ((runPolls 0 [[⟨3, 0⟩, ⟨1, 1⟩], [⟨3, 0⟩, ⟨1, 1⟩, ⟨5, 2⟩]]).1).Pairwise
      (fun b1 b2 => ∀ e ∈ b1, ∀ e' ∈ b2, e.ts < e'.ts) :=
  activityStream_ordered_no_redelivery 0
    [[⟨3, 0⟩, ⟨1, 1⟩], [⟨3, 0⟩, ⟨1, 1⟩, ⟨5, 2⟩]]

end CrimeLab
